/-
Verification of the sidecar process lifecycle manager in
`src/app/src-tauri/src/main.rs` (service-lense).

The Rust code is shallowly embedded as pure Lean functions:

* `extract_port` (main.rs lines 9-12) is modelled over the character list
  of the address string, with Rust's `str::split(':')` embedded as
  `splitChar` and `u16::from_str` embedded as `parseU16`.
* `BackendConfig` and `BackendProcess` (lines 52-63) become Lean structures;
  the OS child handle is a pid (`Nat`).
* The effectful environment (filesystem checks, spawn success, the child
  exiting during the post-spawn delay, processes bound to a port) is an
  oracle record `StartEnv`; the OS process table visible to the supervisor
  is a `World` record tracking live supervisor-spawned pids, the next fresh
  pid, a log of reclaimed ports and a log of spawns with the environment
  variables each child was launched with.
* `stop` (lines 278-289), `start` (lines 73-276) and the `restart_backend`
  command (lines 339-360) become state-passing functions returning the
  updated supervisor state, the updated world and a result.
-/
import Mathlib

namespace ServiceLens

/-! ### Rust `str::split` and `u16::from_str`, embedded on character lists -/

/-- Rust `s.split(sep)` on the character list of `s`: always yields at least
one (possibly empty) segment, with empty segments kept. -/
def splitChar (sep : Char) : List Char → List (List Char)
  | [] => [[]]
  | c :: rest =>
    if c = sep then [] :: splitChar sep rest
    else
      match splitChar sep rest with
      | s :: ss => (c :: s) :: ss
      | [] => [[c]]

/-- Rust `u16::from_str`: an optional leading `+`, then at least one ASCII
digit, value at most `65535`; anything else fails. -/
def parseU16 (cs : List Char) : Option Nat :=
  let ds := match cs with
    | '+' :: rest => rest
    | other => other
  if ds = [] then none
  else if ds.all Char.isDigit then
    let v := ds.foldl (fun acc c => acc * 10 + (c.toNat - 48)) 0
    if v ≤ 65535 then some v else none
  else none

/-- main.rs lines 9-12: `addr.split(':').last().and_then(|p| p.parse::<u16>().ok())`. -/
def extract_port (addr : String) : Option Nat :=
  ((splitChar ':' addr.data).getLast?).bind parseU16

/-- Spec-side description of the segment `extract_port` parses: the last
colon-delimited segment of the address (the whole string when it has no
colon). -/
def lastSeg (sep : Char) : List Char → List Char
  | [] => []
  | c :: rest =>
    if sep ∈ rest then lastSeg sep rest
    else if c = sep then rest
    else c :: rest

/-! ### Configuration model (main.rs lines 52-58, 77-83) -/

/-- main.rs lines 52-58. -/
structure BackendConfig where
  backend_addr : String
  http_addr : String
  use_tls : Bool
  allow_origins : String
deriving DecidableEq, Repr

/-- The built-in default configuration, main.rs lines 78-83. -/
def defaultConfig : BackendConfig :=
  { backend_addr := "localhost:8081"
    http_addr := ":9000"
    use_tls := false
    allow_origins := "http://localhost:5173" }

/-- main.rs line 78: `config.unwrap_or_else(|| BackendConfig { ...defaults })`. -/
def resolveConfig (c : Option BackendConfig) : BackendConfig :=
  c.getD defaultConfig

/-- The environment variables the child is launched with
(main.rs lines 125-130 and 253-258). -/
def envVars (c : BackendConfig) : List (String × String) :=
  [("GRPS_BACKEND_ADDR", c.backend_addr),
   ("GRPS_HTTP_ADDR", c.http_addr),
   ("GRPS_BACKEND_USE_TLS", if c.use_tls then "true" else "false"),
   ("GRPS_ALLOW_ORIGINS", c.allow_origins),
   ("GRPS_AUTO_ALLOW_DEV_ORIGINS", "true")]

/-- All string fields of a config are non-empty (`use_tls`, a `Bool`, is
always defined). -/
def nonEmptyFields (c : BackendConfig) : Prop :=
  c.backend_addr ≠ "" ∧ c.http_addr ≠ "" ∧ c.allow_origins ≠ ""

instance (c : BackendConfig) : Decidable (nonEmptyFields c) := by
  unfold nonEmptyFields; infer_instance

/-! ### The supervisor state, the OS world and the effect oracle -/

/-- main.rs lines 60-63: the supervisor state.  The OS child handle is a pid. -/
structure BackendProcess where
  child : Option Nat
  config : Option BackendConfig
deriving DecidableEq, Repr

/-- main.rs lines 66-71: `BackendProcess::new`. -/
def BackendProcess.new : BackendProcess :=
  { child := none, config := none }

/-- The OS process table as the supervisor affects it: live supervisor-spawned
pids, a fresh-pid counter, a log of ports on which reclamation ran, and a log
of every spawn together with the environment variables the child received. -/
structure World where
  alive : List Nat
  nextPid : Nat
  reclaimedPorts : List Nat
  spawned : List (Nat × List (String × String))
deriving DecidableEq, Repr

/-- The initial empty world. -/
def world0 : World :=
  { alive := [], nextPid := 0, reclaimedPorts := [], spawned := [] }

/-- Target architecture as probed by `cfg!(target_arch = ...)`
(main.rs lines 147-153). -/
inductive Arch where
  | aarch64
  | x86_64
  | otherArch
deriving DecidableEq, Repr

/-- Target OS as probed by `cfg!(target_os = ...)` (main.rs lines 155-161). -/
inductive OSKind where
  | windows
  | macos
  | otherOS
deriving DecidableEq, Repr

/-- Oracle for the effectful environment one `start` attempt sees:
compile-time mode and target, filesystem answers, which pids are bound to a
port, whether the OS spawn succeeds, and whether the child exits during the
fixed post-spawn delay. -/
structure StartEnv where
  debugMode : Bool
  manifestHasParent : Bool
  backendDirExists : Bool
  arch : Arch
  osKind : OSKind
  exeDir : Option String
  resourceDir : Option String
  pathExists : String → Bool
  onPort : Nat → List Nat
  spawnOk : Bool
  spawnErrMsg : String
  exitsImmediately : Bool

/-- The distinct failure exits of `BackendProcess::start`, one constructor per
`return Err(...)` site (plus the propagated `cmd.spawn()?` error). -/
inductive StartError where
  /-- main.rs line 97: `"Failed to resolve app directory"`. -/
  | appDirResolve
  /-- main.rs line 101: `"Backend directory does not exist"`. -/
  | backendDirMissing
  /-- main.rs line 152: `"Unsupported target architecture"`. -/
  | unsupportedArch
  /-- main.rs line 160: `"Unsupported target OS"`. -/
  | unsupportedOS
  /-- main.rs lines 228-230: the binary was found in none of the candidate
  locations. -/
  | binaryNotFound
  /-- main.rs lines 132 and 260: `cmd.spawn()?` failed with an OS error. -/
  | spawnFailed (msg : String)
  /-- main.rs lines 141 and 270: the liveness check saw the child already
  exited; the flag records whether the dev-mode or the production-mode
  message was produced. -/
  | immediateExit (devMode : Bool)
deriving DecidableEq, Repr

/-- The error message each failure exit produces, verbatim from main.rs. -/
def StartError.message : StartError → String
  | .appDirResolve => "Failed to resolve app directory"
  | .backendDirMissing => "Backend directory does not exist"
  | .unsupportedArch => "Unsupported target architecture"
  | .unsupportedOS => "Unsupported target OS"
  | .binaryNotFound =>
      "Backend binary not found. Checked executable_dir and resource_dir locations."
  | .spawnFailed msg => msg
  | .immediateExit true => "Backend process failed to start"
  | .immediateExit false =>
      "Backend process failed to start. Check console logs for details."

/-! ### stop (main.rs lines 278-289) -/

/-- main.rs lines 278-289: take the handle if present, kill the child
(removing it from the live set) and reap it.  `stop` returns no error: kill
failures are only logged in the source. -/
def stop (s : BackendProcess) (w : World) : BackendProcess × World :=
  match s.child with
  | none => (s, w)
  | some pid => ({ s with child := none }, { w with alive := w.alive.erase pid })

/-! ### start (main.rs lines 73-276) -/

/-- main.rs lines 15-50: kill every process bound to the port (the live set
loses the pids the `onPort` oracle reports bound to it). -/
def kill_process_on_port (env : StartEnv) (port : Nat) (w : World) : World :=
  { w with alive := w.alive.filter (fun p => !((env.onPort port).contains p)) }

/-- main.rs lines 85-91: port reclamation before the spawn — when a port can
be extracted from `http_addr`, kill whatever holds it (and log that
reclamation ran); otherwise skip the step entirely. -/
def reclaim (env : StartEnv) (cfg : BackendConfig) (w : World) : World :=
  match extract_port cfg.http_addr with
  | some port =>
      { kill_process_on_port env port w with
          reclaimedPorts := w.reclaimedPorts ++ [port] }
  | none => w

/-- main.rs lines 147-161: the platform-qualified binary name, with the
architecture check preceding the OS check. -/
def binaryName (arch : Arch) (osKind : OSKind) : Except StartError String :=
  match arch with
  | .otherArch => .error .unsupportedArch
  | .aarch64 =>
      match osKind with
      | .windows => .ok "backend-aarch64-pc-windows-msvc.exe"
      | .macos => .ok "backend-aarch64-apple-darwin"
      | .otherOS => .error .unsupportedOS
  | .x86_64 =>
      match osKind with
      | .windows => .ok "backend-x86_64-pc-windows-msvc.exe"
      | .macos => .ok "backend-x86_64-apple-darwin"
      | .otherOS => .error .unsupportedOS

/-- Path join with `/`, standing in for `Path::join`. -/
def joinPath (d f : String) : String :=
  d ++ "/" ++ f

/-- main.rs lines 167-198: the ordered candidate locations for the deployed
binary — executable directory under the fixed name `backend`, then the
resource directory's `binaries/` subdirectory under the qualified name, then
the resource directory root under the qualified name. -/
def candidatePaths (env : StartEnv) (name : String) : List String :=
  (env.exeDir.map (fun d => joinPath d "backend")).toList ++
  (env.resourceDir.map (fun d => joinPath (joinPath d "binaries") name)).toList ++
  (env.resourceDir.map (fun d => joinPath d name)).toList

/-- main.rs lines 167-198: the first candidate location that exists. -/
def findBinary (env : StartEnv) (name : String) : Option String :=
  (candidatePaths env name).find? env.pathExists

/-- main.rs lines 104-143 and 234-272: spawn the child (recording the
environment variables it receives), store the handle, then after the fixed
delay poll `try_wait`; a child that already exited makes `start` fail while
the handle stays stored. -/
def launch (env : StartEnv) (s : BackendProcess) (w : World) (cfg : BackendConfig)
    (devMode : Bool) : BackendProcess × World × Except StartError Unit :=
  if env.spawnOk then
    if env.exitsImmediately then
      ({ s with child := some w.nextPid },
       { w with alive := (w.alive ++ [w.nextPid]).erase w.nextPid,
                nextPid := w.nextPid + 1,
                spawned := w.spawned ++ [(w.nextPid, envVars cfg)] },
       .error (.immediateExit devMode))
    else
      ({ s with child := some w.nextPid },
       { w with alive := w.alive ++ [w.nextPid],
                nextPid := w.nextPid + 1,
                spawned := w.spawned ++ [(w.nextPid, envVars cfg)] },
       .ok ())
  else (s, w, .error (.spawnFailed env.spawnErrMsg))

/-- main.rs lines 93-273: the mode branch of `start` after the prelude —
dev mode resolves the backend source directory and runs `go run`; deployed
mode resolves the platform binary among the candidate locations. -/
def startBody (env : StartEnv) (s : BackendProcess) (w : World)
    (cfg : BackendConfig) : BackendProcess × World × Except StartError Unit :=
  if env.debugMode then
    if env.manifestHasParent then
      if env.backendDirExists then launch env s w cfg true
      else (s, w, .error .backendDirMissing)
    else (s, w, .error .appDirResolve)
  else
    match binaryName env.arch env.osKind with
    | .error e => (s, w, .error e)
    | .ok name =>
      match findBinary env name with
      | some _ => launch env s w cfg false
      | none => (s, w, .error .binaryNotFound)

/-- main.rs lines 73-276: `BackendProcess::start` — stop any existing child
first, store the caller-supplied config, resolve the config, reclaim the
port, then locate and spawn the child and run the liveness check. -/
def start (env : StartEnv) (s : BackendProcess) (w : World)
    (c : Option BackendConfig) : BackendProcess × World × Except StartError Unit :=
  startBody env { child := (stop s w).1.child, config := c }
    (reclaim env (resolveConfig c) (stop s w).2) (resolveConfig c)

/-- main.rs lines 292-296: `Drop for BackendProcess` calls `stop`. -/
def dropSupervisor (s : BackendProcess) (w : World) : BackendProcess × World :=
  stop s w

/-! ### restart_backend (main.rs lines 339-360) -/

/-- main.rs lines 339-360: the `restart_backend` command — `stop` then
`start(Some(config))`, any start failure surfaced to the caller as the string
`"Failed to restart backend: "` followed by the error's message.  (The model
assumes the managed state is present and its lock is acquired.) -/
def restart_backend (env : StartEnv) (s : BackendProcess) (w : World)
    (config : BackendConfig) : BackendProcess × World × Except String Unit :=
  match start env (stop s w).1 (stop s w).2 (some config) with
  | (s2, w2, .ok ()) => (s2, w2, .ok ())
  | (s2, w2, .error e) =>
      (s2, w2, .error ("Failed to restart backend: " ++ e.message))

/-! ### Operation sequences over the supervisor -/

/-- One externally triggerable lifecycle operation, with the oracle for the
environment that call sees. -/
inductive Op where
  | opStart (env : StartEnv) (c : Option BackendConfig)
  | opStop
  | opRestart (env : StartEnv) (c : BackendConfig)

/-- Execute one operation, keeping only the state change. -/
def execOp (sw : BackendProcess × World) : Op → BackendProcess × World
  | .opStart env c => ((start env sw.1 sw.2 c).1, (start env sw.1 sw.2 c).2.1)
  | .opStop => stop sw.1 sw.2
  | .opRestart env c =>
      ((restart_backend env sw.1 sw.2 c).1, (restart_backend env sw.1 sw.2 c).2.1)

/-- Execute a sequence of operations from a given state. -/
def execSeq (sw : BackendProcess × World) (ops : List Op) : BackendProcess × World :=
  ops.foldl execOp sw

/-- The supervisor invariant: at most one supervisor-spawned child is alive,
any live child is the one the handle tracks, and tracked pids are below the
fresh-pid counter. -/
def Inv (s : BackendProcess) (w : World) : Prop :=
  w.alive.length ≤ 1 ∧
  (∀ p ∈ w.alive, s.child = some p) ∧
  (∀ p, s.child = some p → p < w.nextPid)

/-! ### Lemmas about `splitChar` and `lastSeg` -/

theorem splitChar_ne_nil (sep : Char) (l : List Char) : splitChar sep l ≠ [] := by
  cases l with
  | nil => simp [splitChar]
  | cons c rest =>
    unfold splitChar
    split
    · simp
    · split <;> simp

theorem splitChar_of_not_mem (sep : Char) (l : List Char) (h : ∀ c ∈ l, c ≠ sep) :
    splitChar sep l = [l] := by
  induction l with
  | nil => rfl
  | cons c rest ih =>
    have hc : c ≠ sep := h c (by simp)
    have hr := ih (fun x hx => h x (by simp [hx]))
    unfold splitChar
    rw [if_neg hc, hr]

theorem splitChar_single (sep : Char) (l x : List Char) (h : splitChar sep l = [x]) :
    x = l ∧ ∀ c ∈ l, c ≠ sep := by
  induction l generalizing x with
  | nil =>
    simp only [splitChar] at h
    obtain rfl : ([] : List Char) = x := by injection h
    exact ⟨rfl, by simp⟩
  | cons c rest ih =>
    unfold splitChar at h
    by_cases hc : c = sep
    · rw [if_pos hc] at h
      have : splitChar sep rest = [] := by injection h
      exact absurd this (splitChar_ne_nil sep rest)
    · rw [if_neg hc] at h
      cases heq : splitChar sep rest with
      | nil => exact absurd heq (splitChar_ne_nil sep rest)
      | cons s ss =>
        rw [heq] at h
        have hx : c :: s = x := by injection h
        have hss : ss = [] := by injection h
        subst hss
        obtain ⟨hs, hmem⟩ := ih s heq
        subst hs
        refine ⟨hx.symm, fun d hd => ?_⟩
        rcases List.mem_cons.mp hd with hdc | hdr
        · rw [hdc]; exact hc
        · exact hmem d hdr

theorem lastSeg_of_not_mem (sep : Char) (l : List Char) (h : sep ∉ l) :
    lastSeg sep l = l := by
  induction l with
  | nil => rfl
  | cons c rest ih =>
    have hr : sep ∉ rest := fun hm => h (List.mem_cons_of_mem c hm)
    have hc : c ≠ sep := fun hcc => h (by rw [hcc]; exact List.mem_cons_self sep rest)
    unfold lastSeg
    rw [if_neg hr, if_neg hc]

theorem splitChar_getLast (sep : Char) (l : List Char) :
    (splitChar sep l).getLast? = some (lastSeg sep l) := by
  induction l with
  | nil => rfl
  | cons c rest ih =>
    unfold splitChar lastSeg
    by_cases hc : c = sep
    · rw [if_pos hc]
      cases heq : splitChar sep rest with
      | nil => exact absurd heq (splitChar_ne_nil sep rest)
      | cons s ss =>
        rw [List.getLast?_cons_cons, ← heq, ih]
        by_cases hmem : sep ∈ rest
        · rw [if_pos hmem]
        · rw [if_neg hmem, if_pos hc, lastSeg_of_not_mem sep rest hmem]
    · rw [if_neg hc]
      cases heq : splitChar sep rest with
      | nil => exact absurd heq (splitChar_ne_nil sep rest)
      | cons s ss =>
        cases ss with
        | nil =>
          obtain ⟨hs, hmem⟩ := splitChar_single sep rest s heq
          have hnm : sep ∉ rest := fun hm => hmem sep hm rfl
          rw [if_neg hnm, if_neg hc]
          simp [hs]
        | cons t ts =>
          rw [List.getLast?_cons_cons, ← List.getLast?_cons_cons (a := s), ← heq, ih]
          have hmem : sep ∈ rest := by
            by_contra hnm
            have := splitChar_of_not_mem sep rest (fun d hd hds => hnm (hds ▸ hd))
            rw [this] at heq
            have : ([] : List (List Char)) = t :: ts := by injection heq
            exact absurd this.symm (List.cons_ne_nil t ts)
          rw [if_pos hmem]

/-! ### Lemmas about `stop`, `start` and the supervisor invariant -/

theorem alive_cases (s : BackendProcess) (w : World) (h : Inv s w) :
    w.alive = [] ∨ ∃ pid, s.child = some pid ∧ w.alive = [pid] := by
  obtain ⟨hlen, hmem, -⟩ := h
  cases hw : w.alive with
  | nil => exact Or.inl rfl
  | cons p ps =>
    right
    refine ⟨p, hmem p (by rw [hw]; exact List.mem_cons_self p ps), ?_⟩
    rw [hw] at hlen
    have : ps = [] := List.length_eq_zero.mp (by simpa using hlen)
    rw [this]

theorem stop_clears (s : BackendProcess) (w : World) (h : Inv s w) :
    (stop s w).1.child = none ∧ (stop s w).2.alive = [] ∧
    (stop s w).2.nextPid = w.nextPid ∧ (stop s w).1.config = s.config ∧
    (stop s w).2.spawned = w.spawned := by
  cases hch : s.child with
  | none =>
    have halive : w.alive = [] := by
      rcases alive_cases s w h with hnil | ⟨pid, hpid, -⟩
      · exact hnil
      · rw [hch] at hpid; exact absurd hpid (by simp)
    simp [stop, hch, halive]
  | some pid =>
    have halive : w.alive.erase pid = [] := by
      rcases alive_cases s w h with hnil | ⟨q, hq, hw⟩
      · rw [hnil]; rfl
      · rw [hch] at hq
        obtain rfl : pid = q := by injection hq
        rw [hw, List.erase_cons_head]
    simp [stop, hch, halive]

theorem stop_inv (s : BackendProcess) (w : World) (h : Inv s w) :
    Inv (stop s w).1 (stop s w).2 := by
  obtain ⟨hch, halive, -, -, -⟩ := stop_clears s w h
  refine ⟨by simp [halive], by simp [halive], ?_⟩
  intro p hp
  rw [hch] at hp
  exact absurd hp (by simp)

theorem launch_inv (env : StartEnv) (s : BackendProcess) (w : World)
    (cfg : BackendConfig) (devMode : Bool)
    (hchild : s.child = none) (halive : w.alive = []) :
    Inv (launch env s w cfg devMode).1 (launch env s w cfg devMode).2.1 := by
  unfold launch
  split
  · split
    · refine ⟨?_, ?_, ?_⟩
      · simp [halive]
      · intro p hp; simp [halive] at hp
      · intro p hp
        simp only at hp
        have : w.nextPid = p := by injection hp
        simp [← this]
    · refine ⟨?_, ?_, ?_⟩
      · simp [halive]
      · intro p hp
        simp [halive] at hp
        simp [hp]
      · intro p hp
        simp only at hp
        have : w.nextPid = p := by injection hp
        simp [← this]
  · refine ⟨by simp [halive], ?_, ?_⟩
    · intro p hp; simp [halive] at hp
    · intro p hp; rw [hchild] at hp; exact absurd hp (by simp)

theorem reclaim_alive_nil (env : StartEnv) (cfg : BackendConfig) (w : World)
    (h : w.alive = []) : (reclaim env cfg w).alive = [] := by
  unfold reclaim kill_process_on_port
  cases extract_port cfg.http_addr <;> simp [h]

theorem reclaim_nextPid (env : StartEnv) (cfg : BackendConfig) (w : World) :
    (reclaim env cfg w).nextPid = w.nextPid := by
  unfold reclaim kill_process_on_port
  cases extract_port cfg.http_addr <;> simp

theorem startBody_inv (env : StartEnv) (s : BackendProcess) (w : World)
    (cfg : BackendConfig) (hchild : s.child = none) (halive : w.alive = []) :
    Inv (startBody env s w cfg).1 (startBody env s w cfg).2.1 := by
  have base : Inv s w := by
    refine ⟨by simp [halive], ?_, ?_⟩
    · intro p hp; simp [halive] at hp
    · intro p hp; rw [hchild] at hp; exact absurd hp (by simp)
  unfold startBody
  split
  · split
    · split
      · exact launch_inv env s w cfg true hchild halive
      · exact base
    · exact base
  · split
    · exact base
    · split
      · exact launch_inv env s w cfg false hchild halive
      · exact base

theorem start_inv (env : StartEnv) (s : BackendProcess) (w : World)
    (c : Option BackendConfig) (h : Inv s w) :
    Inv (start env s w c).1 (start env s w c).2.1 := by
  obtain ⟨hch, halive, -, -, -⟩ := stop_clears s w h
  unfold start
  exact startBody_inv env _ _ _ hch
    (reclaim_alive_nil env (resolveConfig c) (stop s w).2 halive)

theorem restart_state (env : StartEnv) (s : BackendProcess) (w : World)
    (c : BackendConfig) :
    (restart_backend env s w c).1 = (start env (stop s w).1 (stop s w).2 (some c)).1 ∧
    (restart_backend env s w c).2.1 = (start env (stop s w).1 (stop s w).2 (some c)).2.1 := by
  unfold restart_backend
  rcases hstart : start env (stop s w).1 (stop s w).2 (some c) with ⟨s2, w2, r⟩
  cases r with
  | ok v => cases v; simp
  | error e => simp

theorem restart_inv (env : StartEnv) (s : BackendProcess) (w : World)
    (c : BackendConfig) (h : Inv s w) :
    Inv (restart_backend env s w c).1 (restart_backend env s w c).2.1 := by
  obtain ⟨h1, h2⟩ := restart_state env s w c
  rw [h1, h2]
  exact start_inv env _ _ _ (stop_inv s w h)

theorem execOp_inv (sw : BackendProcess × World) (op : Op) (h : Inv sw.1 sw.2) :
    Inv (execOp sw op).1 (execOp sw op).2 := by
  cases op with
  | opStart env c => exact start_inv env sw.1 sw.2 c h
  | opStop => exact stop_inv sw.1 sw.2 h
  | opRestart env c => exact restart_inv env sw.1 sw.2 c h

theorem execSeq_inv (sw : BackendProcess × World) (ops : List Op)
    (h : Inv sw.1 sw.2) : Inv (execSeq sw ops).1 (execSeq sw ops).2 := by
  induction ops generalizing sw with
  | nil => exact h
  | cons op rest ih => exact ih (execOp sw op) (execOp_inv sw op h)

/-! ### Computation lemmas for `start` -/

/-- The spawn call is reached: in dev mode the backend directory resolves and
exists; in deployed mode the platform is supported and some candidate binary
location exists. -/
def reachesSpawn (env : StartEnv) : Bool :=
  if env.debugMode then env.manifestHasParent && env.backendDirExists
  else
    match binaryName env.arch env.osKind with
    | .error _ => false
    | .ok name => (findBinary env name).isSome

/-- The result component of `launch`, which depends only on the oracle. -/
def launchResult (env : StartEnv) : Except StartError Unit :=
  if env.spawnOk then
    if env.exitsImmediately then .error (.immediateExit env.debugMode)
    else .ok ()
  else .error (.spawnFailed env.spawnErrMsg)

/-- The result component of `start`, which depends only on the oracle: the
supervisor state, the world and the configuration never influence success or
failure. -/
def startResult (env : StartEnv) : Except StartError Unit :=
  if env.debugMode then
    if env.manifestHasParent then
      if env.backendDirExists then launchResult env
      else .error .backendDirMissing
    else .error .appDirResolve
  else
    match binaryName env.arch env.osKind with
    | .error e => .error e
    | .ok name =>
      match findBinary env name with
      | some _ => launchResult env
      | none => .error .binaryNotFound

theorem launch_result (env : StartEnv) (s : BackendProcess) (w : World)
    (cfg : BackendConfig) (devMode : Bool) (h : devMode = env.debugMode) :
    (launch env s w cfg devMode).2.2 = launchResult env := by
  subst h
  unfold launch launchResult
  by_cases hs : env.spawnOk
  · rw [if_pos hs, if_pos hs]
    by_cases he : env.exitsImmediately
    · rw [if_pos he, if_pos he]
    · rw [if_neg he, if_neg he]
  · rw [if_neg hs, if_neg hs]

theorem startBody_result (env : StartEnv) (s : BackendProcess) (w : World)
    (cfg : BackendConfig) : (startBody env s w cfg).2.2 = startResult env := by
  unfold startBody startResult
  cases hd : env.debugMode with
  | true =>
    simp only [if_true]
    by_cases hm : env.manifestHasParent
    · rw [if_pos hm, if_pos hm]
      by_cases hbd : env.backendDirExists
      · rw [if_pos hbd, if_pos hbd]
        exact launch_result env s w cfg true hd.symm
      · rw [if_neg hbd, if_neg hbd]
    · rw [if_neg hm, if_neg hm]
  | false =>
    simp only [Bool.false_eq_true, if_false]
    cases hb : binaryName env.arch env.osKind with
    | error e => simp
    | ok name =>
      cases hf : findBinary env name with
      | none => simp [hf]
      | some p =>
        simp only [hf]
        exact launch_result env s w cfg false hd.symm

theorem start_result (env : StartEnv) (s : BackendProcess) (w : World)
    (c : Option BackendConfig) : (start env s w c).2.2 = startResult env := by
  unfold start
  exact startBody_result env _ _ _

theorem reclaim_skip (env : StartEnv) (cfg : BackendConfig) (w : World)
    (h : extract_port cfg.http_addr = none) : reclaim env cfg w = w := by
  unfold reclaim
  rw [h]

theorem start_ok_shape (env : StartEnv) (s : BackendProcess) (w : World)
    (c : Option BackendConfig) (hr : reachesSpawn env = true)
    (hs : env.spawnOk = true) (he : env.exitsImmediately = false) :
    start env s w c =
      ({ child := some (reclaim env (resolveConfig c) (stop s w).2).nextPid,
         config := c },
       { alive := (reclaim env (resolveConfig c) (stop s w).2).alive ++
                    [(reclaim env (resolveConfig c) (stop s w).2).nextPid],
         nextPid := (reclaim env (resolveConfig c) (stop s w).2).nextPid + 1,
         reclaimedPorts :=
           (reclaim env (resolveConfig c) (stop s w).2).reclaimedPorts,
         spawned := (reclaim env (resolveConfig c) (stop s w).2).spawned ++
                      [((reclaim env (resolveConfig c) (stop s w).2).nextPid,
                        envVars (resolveConfig c))] },
       .ok ()) := by
  unfold start startBody launch
  unfold reachesSpawn at hr
  cases hd : env.debugMode with
  | true =>
    rw [hd] at hr
    simp only [if_true, Bool.and_eq_true] at hr
    obtain ⟨hm, hbd⟩ := hr
    simp [hm, hbd, hs, he]
  | false =>
    rw [hd] at hr
    simp only [Bool.false_eq_true, if_false] at hr
    cases hb : binaryName env.arch env.osKind with
    | error e => rw [hb] at hr; simp at hr
    | ok name =>
      rw [hb] at hr
      simp only at hr
      cases hf : findBinary env name with
      | none => rw [hf] at hr; simp at hr
      | some p => simp [hb, hf, hs, he]

theorem start_immediate_shape (env : StartEnv) (s : BackendProcess) (w : World)
    (c : Option BackendConfig) (hr : reachesSpawn env = true)
    (hs : env.spawnOk = true) (he : env.exitsImmediately = true) :
    start env s w c =
      ({ child := some (reclaim env (resolveConfig c) (stop s w).2).nextPid,
         config := c },
       { alive := ((reclaim env (resolveConfig c) (stop s w).2).alive ++
                     [(reclaim env (resolveConfig c) (stop s w).2).nextPid]).erase
                    (reclaim env (resolveConfig c) (stop s w).2).nextPid,
         nextPid := (reclaim env (resolveConfig c) (stop s w).2).nextPid + 1,
         reclaimedPorts :=
           (reclaim env (resolveConfig c) (stop s w).2).reclaimedPorts,
         spawned := (reclaim env (resolveConfig c) (stop s w).2).spawned ++
                      [((reclaim env (resolveConfig c) (stop s w).2).nextPid,
                        envVars (resolveConfig c))] },
       .error (.immediateExit env.debugMode)) := by
  unfold start startBody launch
  unfold reachesSpawn at hr
  cases hd : env.debugMode with
  | true =>
    rw [hd] at hr
    simp only [if_true, Bool.and_eq_true] at hr
    obtain ⟨hm, hbd⟩ := hr
    simp [hm, hbd, hs, he, hd]
  | false =>
    rw [hd] at hr
    simp only [Bool.false_eq_true, if_false] at hr
    cases hb : binaryName env.arch env.osKind with
    | error e => rw [hb] at hr; simp at hr
    | ok name =>
      rw [hb] at hr
      simp only at hr
      cases hf : findBinary env name with
      | none => rw [hf] at hr; simp at hr
      | some p => simp [hb, hf, hs, he, hd]

/-! ### Auxiliary world-component lemmas -/

theorem stop_world_fields (s : BackendProcess) (w : World) :
    (stop s w).2.reclaimedPorts = w.reclaimedPorts ∧
    (stop s w).2.spawned = w.spawned ∧ (stop s w).2.nextPid = w.nextPid := by
  cases h : s.child <;> simp [stop, h]

theorem launch_reclaimedPorts (env : StartEnv) (s : BackendProcess) (w : World)
    (cfg : BackendConfig) (d : Bool) :
    (launch env s w cfg d).2.1.reclaimedPorts = w.reclaimedPorts := by
  unfold launch
  split
  · split <;> rfl
  · rfl

theorem startBody_reclaimedPorts (env : StartEnv) (s : BackendProcess)
    (w : World) (cfg : BackendConfig) :
    (startBody env s w cfg).2.1.reclaimedPorts = w.reclaimedPorts := by
  unfold startBody
  split
  · split
    · split
      · exact launch_reclaimedPorts env s w cfg true
      · rfl
    · rfl
  · split
    · rfl
    · split
      · exact launch_reclaimedPorts env s w cfg false
      · rfl

/-! ### Substring occurrence on strings (for the error-message analysis) -/

/-- The first list is a leading segment of the second. -/
def leadMatch : List Char → List Char → Bool
  | [], _ => true
  | _ :: _, [] => false
  | a :: as, b :: bs => a = b && leadMatch as bs

/-- The first list occurs contiguously somewhere in the second. -/
def occursIn (needle : List Char) : List Char → Bool
  | [] => needle.isEmpty
  | c :: rest => leadMatch needle (c :: rest) || occursIn needle rest

/-- String `sub` occurs contiguously in string `hay`. -/
def containsStr (hay sub : String) : Bool :=
  occursIn sub.data hay.data

/-! ### Concrete oracle environments used by the witnesses -/

/-- Dev-mode environment: backend directory present, spawn succeeds, child
stays alive through the liveness check. -/
def devEnvA : StartEnv :=
  { debugMode := true, manifestHasParent := true, backendDirExists := true,
    arch := .aarch64, osKind := .macos, exeDir := some "/opt/app",
    resourceDir := some "/opt/res", pathExists := fun _ => false,
    onPort := fun _ => [], spawnOk := true, spawnErrMsg := "spawn failed",
    exitsImmediately := false }

/-- Like `devEnvA` but the child exits during the post-spawn delay. -/
def devEnvB : StartEnv :=
  { devEnvA with exitsImmediately := true }

/-- Deployed-mode environment in which no candidate binary location exists. -/
def prodEnvMissing : StartEnv :=
  { devEnvA with debugMode := false }

/-- The configuration of the restart scenario in the spec's testable
property list. -/
def cfgRestart : BackendConfig :=
  { backend_addr := "x", http_addr := ":1234", use_tls := true,
    allow_origins := "y" }

/-! ### The claims -/

/-- C1: at-most-one-child invariant — after every sequence of start/stop/
restart operations on a supervisor started from the initial state, at most
one supervisor-spawned child is alive, and any live child is exactly the one
the handle tracks (start unconditionally stops any existing child before
spawning a new one). -/
theorem at_most_one_child (ops : List Op) :
    (execSeq (BackendProcess.new, world0) ops).2.alive.length ≤ 1 ∧
    ∀ p ∈ (execSeq (BackendProcess.new, world0) ops).2.alive,
      (execSeq (BackendProcess.new, world0) ops).1.child = some p := by
  have h0 : Inv (BackendProcess.new, world0).1 (BackendProcess.new, world0).2 := by
    refine ⟨by simp [world0], ?_, ?_⟩
    · intro p hp; simp [world0] at hp
    · intro p hp; simp [BackendProcess.new] at hp
  have h := execSeq_inv (BackendProcess.new, world0) ops h0
  exact ⟨h.1, h.2.1⟩

/-- C2: stop is idempotent and infallible — it returns no error by type, is
the identity when no handle is held, and when a handle is held it terminates
that child and clears the handle, so a second consecutive stop is a no-op. -/
theorem stop_idempotent_infallible (s : BackendProcess) (w : World) :
    (s.child = none → stop s w = (s, w)) ∧
    (∀ pid, s.child = some pid →
      (stop s w).1.child = none ∧ (stop s w).2.alive = w.alive.erase pid) ∧
    stop (stop s w).1 (stop s w).2 = stop s w := by
  refine ⟨?_, ?_, ?_⟩
  · intro h; simp [stop, h]
  · intro pid h; simp [stop, h]
  · cases h : s.child <;> simp [stop, h]

theorem stop_idempotent_infallible_witness :
    stop BackendProcess.new world0 = (BackendProcess.new, world0) :=
  (stop_idempotent_infallible BackendProcess.new world0).1 rfl

/-- C4 counterexample: a caller-supplied config with an empty
`backend_addr` is used verbatim, so the resolved config does not have all
fields non-empty — the claim fails for arbitrary caller-supplied field
values. -/
theorem config_completeness_counterexample :
    ¬ nonEmptyFields (resolveConfig (some
      { backend_addr := "", http_addr := ":9000", use_tls := false,
        allow_origins := "http://localhost:5173" })) := by
  decide

/-- C4 amended: resolution is a total function (it never fails) and the
resolved config has all four fields defined; its fields are non-empty
whenever the caller-supplied config's fields (if a config was supplied at
all) are non-empty — in particular always when no config is supplied. -/
theorem config_completeness_amended (c : Option BackendConfig)
    (h : ∀ cfg, c = some cfg → nonEmptyFields cfg) :
    nonEmptyFields (resolveConfig c) := by
  cases c with
  | none => decide
  | some cfg => exact h cfg rfl

theorem config_completeness_amended_witness :
    nonEmptyFields (resolveConfig (some
      { backend_addr := "a", http_addr := ":1", use_tls := true,
        allow_origins := "b" })) :=
  config_completeness_amended _ (fun cfg h => by
    have hc : ({ backend_addr := "a", http_addr := ":1", use_tls := true,
                 allow_origins := "b" } : BackendConfig) = cfg := by
      injection h
    rw [← hc]; decide)

/-- C5: config precedence is uniform (Policy B) — the config used for the
start attempt (and recorded as the spawned child's environment) is the
caller-supplied object verbatim when one is supplied, and the whole built-in
default object when none is; never a mix of tiers. -/
theorem config_precedence (env : StartEnv) (s : BackendProcess) (w : World)
    (c : Option BackendConfig) (hr : reachesSpawn env = true)
    (hs : env.spawnOk = true) (he : env.exitsImmediately = false) :
    (∃ pid, ((start env s w c).2.1.spawned).getLast? =
      some (pid, envVars (resolveConfig c))) ∧
    (∀ cfg, c = some cfg → resolveConfig c = cfg) ∧
    (c = none → resolveConfig c = defaultConfig) ∧
    ((∃ cfg, c = some cfg ∧ resolveConfig c = cfg) ∨
      (c = none ∧ resolveConfig c = defaultConfig)) := by
  refine ⟨?_, ?_, ?_, ?_⟩
  · rw [start_ok_shape env s w c hr hs he]
    exact ⟨_, List.getLast?_concat _⟩
  · intro cfg h; rw [h]; rfl
  · intro h; rw [h]; rfl
  · cases c with
    | none => exact Or.inr ⟨rfl, rfl⟩
    | some cfg => exact Or.inl ⟨cfg, rfl, rfl⟩

theorem config_precedence_witness :
    ∃ pid, ((start devEnvA BackendProcess.new world0 none).2.1.spawned).getLast? =
      some (pid, envVars (resolveConfig none)) :=
  (config_precedence devEnvA BackendProcess.new world0 none (by decide) rfl rfl).1

/-- C7: extract_port returns 9000 on ":9000", 8081 on "localhost:8081" and
none on "invalid"; in general it parses exactly the last colon-delimited
segment of the address as an unsigned 16-bit integer, returning none when
that segment does not parse. -/
theorem extract_port_behaviour :
    extract_port ":9000" = some 9000 ∧
    extract_port "localhost:8081" = some 8081 ∧
    extract_port "invalid" = none ∧
    ∀ addr : String, extract_port addr = parseU16 (lastSeg ':' addr.data) := by
  refine ⟨by decide, by decide, by decide, ?_⟩
  intro addr
  unfold extract_port
  rw [splitChar_getLast]
  rfl

/-- C3: immediate-exit detection — whenever the spawn succeeds, a child that
has already exited when polled after the fixed post-spawn delay makes start
fail with the immediate-exit error (a constructor distinct from a spawn
failure), and a child that has not exited makes start succeed. -/
theorem immediate_exit_detection (env : StartEnv) (s : BackendProcess)
    (w : World) (c : Option BackendConfig) (hr : reachesSpawn env = true)
    (hs : env.spawnOk = true) :
    (env.exitsImmediately = true →
      (start env s w c).2.2 = .error (.immediateExit env.debugMode) ∧
      ∀ msg, (StartError.immediateExit env.debugMode) ≠ .spawnFailed msg) ∧
    (env.exitsImmediately = false → (start env s w c).2.2 = .ok ()) := by
  constructor
  · intro he
    constructor
    · rw [start_immediate_shape env s w c hr hs he]
    · intro msg h
      exact StartError.noConfusion h
  · intro he
    rw [start_ok_shape env s w c hr hs he]

theorem immediate_exit_detection_witness :
    (start devEnvB BackendProcess.new world0 none).2.2 =
      .error (.immediateExit true) :=
  ((immediate_exit_detection devEnvB BackendProcess.new world0 none
      (by decide) rfl).1 rfl).1

/-- C10: the immediate-exit error path is non-atomic — when start fails
because the liveness check saw the child already exited, the supervisor still
holds the (exited) child's handle and the caller-supplied config; a
subsequent stop, or the drop path (which calls stop), clears the stale
handle. -/
theorem immediate_exit_state (env : StartEnv) (s : BackendProcess) (w : World)
    (c : Option BackendConfig) (hr : reachesSpawn env = true)
    (hs : env.spawnOk = true) (he : env.exitsImmediately = true) :
    (start env s w c).2.2 = .error (.immediateExit env.debugMode) ∧
    (∃ pid, (start env s w c).1.child = some pid) ∧
    (start env s w c).1.config = c ∧
    (stop (start env s w c).1 (start env s w c).2.1).1.child = none ∧
    (dropSupervisor (start env s w c).1 (start env s w c).2.1).1.child = none := by
  rw [start_immediate_shape env s w c hr hs he]
  refine ⟨rfl, ⟨_, rfl⟩, rfl, ?_, ?_⟩
  · simp [stop]
  · simp [dropSupervisor, stop]

theorem immediate_exit_state_witness :
    ∃ pid, (start devEnvB BackendProcess.new world0 none).1.child = some pid :=
  (immediate_exit_state devEnvB BackendProcess.new world0 none
      (by decide) rfl rfl).2.1

/-- C8: an unparsable port is non-fatal — when no port can be extracted from
the resolved `http_addr`, the port-reclamation step is skipped entirely (the
reclamation log is unchanged), and the success/failure outcome of start is
the same as for any other configuration input: port extraction failure never
causes start to return an error. -/
theorem unparsable_port_nonfatal (env : StartEnv) (s : BackendProcess)
    (w : World) (c : Option BackendConfig)
    (h : extract_port (resolveConfig c).http_addr = none) :
    (start env s w c).2.1.reclaimedPorts = w.reclaimedPorts ∧
    ∀ c2 : Option BackendConfig, (start env s w c).2.2 = (start env s w c2).2.2 := by
  constructor
  · unfold start
    rw [startBody_reclaimedPorts, reclaim_skip env (resolveConfig c) (stop s w).2 h]
    exact (stop_world_fields s w).1
  · intro c2
    rw [start_result, start_result]

theorem unparsable_port_nonfatal_witness :
    (start devEnvA BackendProcess.new world0
        (some { backend_addr := "a", http_addr := "invalid", use_tls := false,
                allow_origins := "b" })).2.1.reclaimedPorts =
      world0.reclaimedPorts :=
  (unparsable_port_nonfatal devEnvA BackendProcess.new world0 _ (by decide)).1

/-- C9 counterexample: with every candidate location absent in deployed
mode, start does fail, but the surfaced error message is the fixed string
that does not include the checked paths — here the first checked path
`/opt/app/backend` does not occur in the message, refuting "includes all
checked paths". -/
theorem binary_not_found_counterexample :
    (start prodEnvMissing BackendProcess.new world0 none).2.2 =
      .error .binaryNotFound ∧
    candidatePaths prodEnvMissing "backend-aarch64-apple-darwin" =
      ["/opt/app/backend", "/opt/res/binaries/backend-aarch64-apple-darwin",
       "/opt/res/backend-aarch64-apple-darwin"] ∧
    findBinary prodEnvMissing "backend-aarch64-apple-darwin" = none ∧
    containsStr (StartError.message .binaryNotFound) "/opt/app/backend" = false := by
  refine ⟨rfl, by decide, by decide, by decide⟩

/-- C9 amended: in deployed mode, when none of the ordered candidate
locations contains the child binary, start fails and the error surfaced to
the caller is the fixed descriptive message naming the checked location
categories (executable and resource directories) — but not the concrete
checked paths themselves. -/
theorem binary_not_found_amended (env : StartEnv) (s : BackendProcess)
    (w : World) (c : Option BackendConfig) (name : String)
    (hdev : env.debugMode = false)
    (hname : binaryName env.arch env.osKind = .ok name)
    (hmiss : findBinary env name = none) :
    (start env s w c).2.2 = .error .binaryNotFound ∧
    (StartError.binaryNotFound).message =
      "Backend binary not found. Checked executable_dir and resource_dir locations." ∧
    (∀ p ∈ candidatePaths env name, env.pathExists p = false) := by
  refine ⟨?_, rfl, ?_⟩
  · rw [start_result]
    simp [startResult, hdev, hname, hmiss]
  · intro p hp
    unfold findBinary at hmiss
    cases hb : env.pathExists p with
    | false => rfl
    | true => exact absurd (List.find?_eq_none.mp hmiss p hp hb) (by simp)

theorem binary_not_found_amended_witness :
    (start prodEnvMissing BackendProcess.new world0 none).2.2 =
      .error .binaryNotFound :=
  (binary_not_found_amended prodEnvMissing BackendProcess.new world0 none
      "backend-aarch64-apple-darwin" rfl rfl (by decide)).1

/-- C6: restart replaces the config — after a successful `start(None)`
followed by `restart` with the fully specified config
`{backend_addr:"x", http_addr:":1234", use_tls:true, allow_origins:"y"}`, the
newly launched child receives exactly those values as
`GRPS_BACKEND_ADDR`, `GRPS_HTTP_ADDR`, `GRPS_BACKEND_USE_TLS` (rendered
`"true"`), `GRPS_ALLOW_ORIGINS`, plus `GRPS_AUTO_ALLOW_DEV_ORIGINS="true"`;
the prior child is no longer alive; and restart is stop followed by start,
surfacing any start failure to its caller as a string. -/
theorem restart_replaces_config (env1 env2 : StartEnv)
    (hr1 : reachesSpawn env1 = true) (hs1 : env1.spawnOk = true)
    (he1 : env1.exitsImmediately = false)
    (hr2 : reachesSpawn env2 = true) (hs2 : env2.spawnOk = true)
    (he2 : env2.exitsImmediately = false) :
    (restart_backend env2 (start env1 BackendProcess.new world0 none).1
        (start env1 BackendProcess.new world0 none).2.1 cfgRestart).2.2 =
      .ok () ∧
    (∃ p2,
      (restart_backend env2 (start env1 BackendProcess.new world0 none).1
          (start env1 BackendProcess.new world0 none).2.1 cfgRestart).1.child =
        some p2 ∧
      (restart_backend env2 (start env1 BackendProcess.new world0 none).1
          (start env1 BackendProcess.new world0 none).2.1
          cfgRestart).2.1.spawned.getLast? =
        some (p2,
          [("GRPS_BACKEND_ADDR", "x"), ("GRPS_HTTP_ADDR", ":1234"),
           ("GRPS_BACKEND_USE_TLS", "true"), ("GRPS_ALLOW_ORIGINS", "y"),
           ("GRPS_AUTO_ALLOW_DEV_ORIGINS", "true")]) ∧
      ∀ p1, (start env1 BackendProcess.new world0 none).1.child = some p1 →
        p1 ∉ (restart_backend env2 (start env1 BackendProcess.new world0 none).1
            (start env1 BackendProcess.new world0 none).2.1 cfgRestart).2.1.alive ∧
        p1 ≠ p2) ∧
    (∀ (env : StartEnv) (s : BackendProcess) (w : World) (cfg : BackendConfig)
        (e : StartError),
      (start env (stop s w).1 (stop s w).2 (some cfg)).2.2 = .error e →
      (restart_backend env s w cfg).2.2 =
        .error ("Failed to restart backend: " ++ e.message)) := by
  have hp1 : extract_port defaultConfig.http_addr = some 9000 := by decide
  have h1 : start env1 BackendProcess.new world0 none =
      ({ child := some 0, config := none },
       { alive := [0], nextPid := 1, reclaimedPorts := [9000],
         spawned := [(0, envVars defaultConfig)] },
       .ok ()) := by
    rw [start_ok_shape env1 BackendProcess.new world0 none hr1 hs1 he1]
    simp [stop, BackendProcess.new, world0, reclaim, kill_process_on_port, hp1,
      resolveConfig]
  have hp2 : extract_port cfgRestart.http_addr = some 1234 := by decide
  have h2 : start env2
        (stop { child := some 0, config := none }
          { alive := [0], nextPid := 1, reclaimedPorts := [9000],
            spawned := [(0, envVars defaultConfig)] }).1
        (stop { child := some 0, config := none }
          { alive := [0], nextPid := 1, reclaimedPorts := [9000],
            spawned := [(0, envVars defaultConfig)] }).2
        (some cfgRestart) =
      ({ child := some 1, config := some cfgRestart },
       { alive := [1], nextPid := 2, reclaimedPorts := [9000, 1234],
         spawned := [(0, envVars defaultConfig), (1, envVars cfgRestart)] },
       .ok ()) := by
    rw [start_ok_shape env2 _ _ _ hr2 hs2 he2]
    simp [stop, reclaim, kill_process_on_port, hp2, resolveConfig]
  have h3 : restart_backend env2 { child := some 0, config := none }
        { alive := [0], nextPid := 1, reclaimedPorts := [9000],
          spawned := [(0, envVars defaultConfig)] } cfgRestart =
      ({ child := some 1, config := some cfgRestart },
       { alive := [1], nextPid := 2, reclaimedPorts := [9000, 1234],
         spawned := [(0, envVars defaultConfig), (1, envVars cfgRestart)] },
       .ok ()) := by
    unfold restart_backend
    rw [h2]
  refine ⟨?_, ⟨1, ?_, ?_, ?_⟩, ?_⟩
  · rw [h1]
    simp only
    rw [h3]
  · rw [h1]
    simp only
    rw [h3]
  · rw [h1]
    simp only
    rw [h3]
    rfl
  · intro p1 hp
    rw [h1] at hp
    simp only at hp
    have : (0 : Nat) = p1 := by injection hp
    subst this
    rw [h1]
    simp only
    rw [h3]
    exact ⟨by decide, by decide⟩
  · intro env s w cfg e hE
    unfold restart_backend
    rcases hstart : start env (stop s w).1 (stop s w).2 (some cfg) with ⟨s2, w2, r⟩
    rw [hstart] at hE
    simp only at hE
    subst hE
    simp

theorem restart_replaces_config_witness :
    (restart_backend devEnvA (start devEnvA BackendProcess.new world0 none).1
        (start devEnvA BackendProcess.new world0 none).2.1 cfgRestart).2.2 =
      .ok () :=
  (restart_replaces_config devEnvA devEnvA (by decide) rfl rfl
      (by decide) rfl rfl).1

end ServiceLens
